import Mathlib

/-!
# Verification of the GuiWorld Azure hub-and-spoke Terraform configuration

This file gives a shallow embedding of the Terraform hub-and-spoke
infrastructure of the GuiWorld repository (directory `infrastructure/`:
the hub plus the Key Vault, Database and Storage spokes) and proves
properties of it.

The embedding follows the Terraform sources:
* variable declarations (with their defaults and `validation` blocks)
  become Lean structures and values;
* each spoke's resource declarations become a state-builder function
  from the spoke's variables, the hub's remote-state outputs and the
  outcomes of the `random_string` / `random_password` resources to a
  record of the created resources' attributes;
* the plan-phase reads of `terraform_remote_state` data sources become
  an `Except` wrapper around the state builder: Terraform reads data
  sources while planning, before any resource is created, so an
  unreadable remote state aborts the run with no resource created.

Machine-specific attributes that Azure assigns (resource ids, fqdn) are
modelled as strings derived deterministically from the resource names.
-/

namespace GuiWorld

/-! ## Tag maps and Terraform `merge`

Terraform tag maps are string-to-string maps; `merge(m1, m2, m3)` takes
the union with later arguments overriding earlier ones on key collision.
We model a map as an association list in which later entries override
earlier ones, and `merge` as list append. -/

abbrev Tags := List (String × String)

/-- Lookup in an association list where later entries override earlier
ones (the representation of a Terraform map built by `merge`). -/
def tagLookup : Tags → String → Option String
  | [], _ => none
  | (k', v') :: rest, k =>
    match tagLookup rest k with
    | some v => some v
    | none => if k' == k then some v' else none

/-- Left-biased choice on `Option`, used to state override ordering. -/
def orO (x y : Option String) : Option String :=
  match x with
  | some v => some v
  | none => y

theorem tagLookup_append (a b : Tags) (k : String) :
    tagLookup (a ++ b) k = orO (tagLookup b k) (tagLookup a k) := by
  induction a with
  | nil =>
    cases h : tagLookup b k <;> simp [tagLookup, orO, h]
  | cons hd tl ih =>
    obtain ⟨k', v'⟩ := hd
    simp only [List.cons_append, tagLookup, List.append_eq]
    rw [ih]
    cases h : tagLookup b k <;> cases h' : tagLookup tl k <;> simp [orO]

/-! ## CIDR validation

The hub and the Key Vault / Database spokes validate every address-space
and subnet-prefix variable with
`condition = can(cidrhost(var.x, 0))`.  `cidrhost` parses its argument
with Terraform's `ipaddr.ParseCIDR`, a fork of Go's pre-1.17 `net`
parser that Terraform keeps deliberately: the string is split at the
first `/`; the address part is tried as IPv4 dotted-quad (four decimal
fields `0`–`255`, leading zeros tolerated) and otherwise as IPv6 text
(hex groups up to `ffff`, at most one `::`, an optional trailing
dotted-quad, an optional `%zone` suffix stripped before parsing); the
mask part is a decimal prefix length bounded by 32 for IPv4 and 128 for
IPv6.  The model below follows that parser; host number 0 is always in
range, so `can(cidrhost(s, 0))` succeeds exactly when the parse does. -/

/-- Numeric value of a decimal digit character. -/
def digitVal (c : Char) : Nat := c.toNat - 48

/-- Value of a string of decimal digits. -/
def digitsToNat (cs : List Char) : Nat :=
  cs.foldl (fun n c => 10 * n + digitVal c) 0

/-- A nonempty run of decimal digits (leading zeros tolerated, as in the
pre-Go-1.17 `dtoi`; its overflow cutoff only rejects values that the
octet / prefix-length bounds reject anyway). -/
def isNatSeg (cs : List Char) : Bool :=
  !cs.isEmpty && cs.all (fun c => c.isDigit)

/-- A decimal field of an IPv4 address: digits with value at most 255. -/
def isOctet (cs : List Char) : Bool :=
  isNatSeg cs && decide (digitsToNat cs ≤ 255)

/-- Split a character list at every occurrence of `sep`. -/
def splitOnChar (sep : Char) : List Char → List (List Char)
  | [] => [[]]
  | c :: cs =>
    let r := splitOnChar sep cs
    if c = sep then [] :: r else (c :: r.headD []) :: r.tail

/-- Join pieces back with `sep`; inverse of `splitOnChar`. -/
def joinSep (sep : Char) : List (List Char) → List Char
  | [] => []
  | [x] => x
  | x :: xs => x ++ sep :: joinSep sep xs

/-- The dotted-quad IPv4 address parser (`parseIPv4`): four nonempty
decimal fields separated by dots, each at most 255, consuming the whole
string. -/
def parseIpv4Addr (cs : List Char) : Bool :=
  match splitOnChar '.' cs with
  | [a, b, c, d] => isOctet a && isOctet b && isOctet c && isOctet d
  | _ => false

/-- Value of a hexadecimal digit character, if it is one. -/
def hexDigitVal (c : Char) : Option Nat :=
  if c.isDigit then some (c.toNat - 48)
  else if 'a' ≤ c ∧ c ≤ 'f' then some (c.toNat - 87)
  else if 'A' ≤ c ∧ c ≤ 'F' then some (c.toNat - 55)
  else none

/-- The hex-number scanner `xtoi`: consumes a maximal run of hex digits,
returning the value and the count consumed, and failing on an empty run
or on reaching the `0xFFFFFF` overflow cutoff. -/
def xtoiAux : Nat → Nat → List Char → Option (Nat × Nat)
  | n, i, [] => if i = 0 then none else some (n, i)
  | n, i, ch :: rest =>
    match hexDigitVal ch with
    | none => if i = 0 then none else some (n, i)
    | some d =>
      if 0xFFFFFF ≤ 16 * n + d then none
      else xtoiAux (16 * n + d) (i + 1) rest

def xtoi (cs : List Char) : Option (Nat × Nat) := xtoiAux 0 0 cs

/-- The scanning loop of `parseIPv6` over a 16-byte address: `s` is the
remaining text, `i` the number of bytes filled so far and `ell` whether
a `::` has been seen.  Each 16-bit hex group fills two bytes; a group
followed by a dot must be the start of a trailing dotted-quad (allowed
at byte 12, or anywhere it fits after a `::`); `::` may occur at most
once and must stand for at least one zero group.  The fuel argument is
only a structural-recursion bound: every recursive call grows `i` by 2
toward the guard at 16, so with fuel 9 and `i = 0` the zero-fuel branch
is unreachable. -/
def p6Loop : Nat → List Char → Nat → Bool → Bool
  | 0, _, _, _ => false
  | fuel + 1, s, i, ell =>
    if 16 ≤ i then s.isEmpty && !ell
    else
      match xtoi s with
      | none => false
      | some (n, c) =>
        if 0xFFFF < n then false
        else
          match s.drop c with
          | [] => if i + 2 = 16 then !ell else ell
          | r0 :: rest2 =>
            if r0 = '.' then
              if ell = false ∧ i ≠ 12 then false
              else if 16 < i + 4 then false
              else if parseIpv4Addr s then (if i + 4 = 16 then !ell else ell)
              else false
            else if r0 = ':' then
              match rest2 with
              | [] => false
              | r1 :: rest3 =>
                if r1 = ':' then
                  if ell then false
                  else if rest3.isEmpty then decide (i + 2 < 16)
                  else p6Loop fuel rest3 (i + 2) true
                else p6Loop fuel (r1 :: rest3) (i + 2) ell
            else false

/-- Index of the last occurrence of `c` in `cs`, if any. -/
def lastIdxOf (c : Char) (cs : List Char) : Option Nat :=
  match cs.reverse.findIdx? (fun x => x = c) with
  | none => none
  | some j => some (cs.length - 1 - j)

/-- `splitHostZone`: a `%` at a positive index splits off a zone suffix,
which the parser ignores; only the host part is parsed. -/
def hostPart (cs : List Char) : List Char :=
  match lastIdxOf '%' cs with
  | some i => if 0 < i then cs.take i else cs
  | none => cs

/-- `parseIPv6` on a zone-free string: a leading `::` starts with the
ellipsis seen (and alone denotes the all-zero address); otherwise the
scanning loop starts fresh. -/
def parseIpv6NoZone (cs : List Char) : Bool :=
  match cs with
  | c1 :: c2 :: rest =>
    if c1 = ':' ∧ c2 = ':' then (rest.isEmpty || p6Loop 9 rest 0 true)
    else p6Loop 9 cs 0 false
  | _ => p6Loop 9 cs 0 false

/-- The IPv6 address parser used by `ParseCIDR` (`parseIPv6Zone`). -/
def parseIpv6Addr (cs : List Char) : Bool := parseIpv6NoZone (hostPart cs)

/-- The validation condition `can(cidrhost(var.x, 0))` shared by every
validated address variable of the hub and of the Key Vault and Database
spokes: split at the slash, parse the address as IPv4 and otherwise as
IPv6, and bound the decimal prefix length by 32 or 128 accordingly. -/
def cidrValidation (s : String) : Bool :=
  match splitOnChar '/' s.toList with
  | [addr, mask] =>
    if parseIpv4Addr addr then isNatSeg mask && decide (digitsToNat mask ≤ 32)
    else if parseIpv6Addr addr then isNatSeg mask && decide (digitsToNat mask ≤ 128)
    else false
  | _ => false

/-- Modelled from the spec: a decimal literal as it may appear as an
octet or prefix length of a valid CIDR block (leading zeros tolerated,
as the embedded parser tolerates them). -/
def DecimalLit (cs : List Char) : Prop :=
  cs ≠ [] ∧ (∀ c ∈ cs, c.isDigit = true)

/-- Modelled from the spec: `s` is a valid IPv4 CIDR block — four
dot-separated decimal octets `0`–`255` followed by a slash and a
decimal prefix length `0`–`32`. -/
def CidrShaped (s : String) : Prop :=
  ∃ a b c d p : List Char,
    s.toList = a ++ '.' :: (b ++ '.' :: (c ++ '.' :: (d ++ '/' :: p))) ∧
    DecimalLit a ∧ digitsToNat a ≤ 255 ∧
    DecimalLit b ∧ digitsToNat b ≤ 255 ∧
    DecimalLit c ∧ digitsToNat c ≤ 255 ∧
    DecimalLit d ∧ digitsToNat d ≤ 255 ∧
    DecimalLit p ∧ digitsToNat p ≤ 32

theorem isNatSeg_iff (cs : List Char) : isNatSeg cs = true ↔ DecimalLit cs := by
  cases cs with
  | nil => simp [isNatSeg, DecimalLit]
  | cons c rest => simp [isNatSeg, DecimalLit, List.all_eq_true]

theorem splitOnChar_ne_nil (sep : Char) (l : List Char) : splitOnChar sep l ≠ [] := by
  induction l with
  | nil => simp [splitOnChar]
  | cons c cs ih =>
    simp only [splitOnChar]
    split <;> simp

theorem splitOnChar_of_not_mem (sep : Char) (l : List Char)
    (h : ∀ c ∈ l, c ≠ sep) : splitOnChar sep l = [l] := by
  induction l with
  | nil => rfl
  | cons c cs ih =>
    have hc : c ≠ sep := h c (List.mem_cons_self c cs)
    have ih' := ih (fun x hx => h x (List.mem_cons_of_mem c hx))
    simp [splitOnChar, hc, ih']

theorem splitOnChar_append (sep : Char) (l₁ l₂ : List Char)
    (h : ∀ c ∈ l₁, c ≠ sep) :
    splitOnChar sep (l₁ ++ sep :: l₂) = l₁ :: splitOnChar sep l₂ := by
  induction l₁ with
  | nil => simp [splitOnChar]
  | cons c cs ih =>
    have hc : c ≠ sep := h c (List.mem_cons_self c cs)
    have ih' := ih (fun x hx => h x (List.mem_cons_of_mem c hx))
    simp [splitOnChar, hc, ih']

theorem joinSep_splitOnChar (sep : Char) (l : List Char) :
    joinSep sep (splitOnChar sep l) = l := by
  induction l with
  | nil => rfl
  | cons c cs ih =>
    obtain ⟨h, t, ht⟩ : ∃ h t, splitOnChar sep cs = h :: t := by
      cases hsp : splitOnChar sep cs with
      | nil => exact absurd hsp (splitOnChar_ne_nil _ _)
      | cons h t => exact ⟨h, t, rfl⟩
    rw [ht] at ih
    by_cases hc : c = sep
    · subst hc
      simp only [splitOnChar, if_pos rfl, ht]
      show c :: joinSep c (h :: t) = c :: cs
      rw [ih]
    · simp only [splitOnChar, if_neg hc, ht, List.headD_cons, List.tail_cons]
      cases t with
      | nil =>
        show c :: h = c :: cs
        have : h = cs := ih
        rw [this]
      | cons t0 ts =>
        show (c :: h) ++ sep :: joinSep sep (t0 :: ts) = c :: cs
        have : h ++ sep :: joinSep sep (t0 :: ts) = cs := ih
        rw [List.cons_append, this]

theorem not_mem_of_mem_splitOnChar (sep : Char) (l : List Char) :
    ∀ x ∈ splitOnChar sep l, sep ∉ x := by
  induction l with
  | nil =>
    intro x hx
    simp only [splitOnChar, List.mem_singleton] at hx
    subst hx
    simp
  | cons c cs ih =>
    intro x hx
    obtain ⟨h, t, ht⟩ : ∃ h t, splitOnChar sep cs = h :: t := by
      cases hsp : splitOnChar sep cs with
      | nil => exact absurd hsp (splitOnChar_ne_nil _ _)
      | cons h t => exact ⟨h, t, rfl⟩
    by_cases hc : c = sep
    · subst hc
      simp only [splitOnChar, if_pos rfl] at hx
      rcases List.mem_cons.mp hx with hx | hx
      · subst hx; simp
      · exact ih x hx
    · simp only [splitOnChar, if_neg hc, ht, List.headD_cons, List.tail_cons] at hx
      rcases List.mem_cons.mp hx with hx | hx
      · subst hx
        intro hm
        rcases List.mem_cons.mp hm with hm | hm
        · exact hc hm.symm
        · exact ih h (ht ▸ List.mem_cons_self h t) hm
      · exact ih x (ht ▸ List.mem_cons_of_mem h hx)

theorem digit_ne_sep (c : Char) (h : c.isDigit = true) : c ≠ '/' ∧ c ≠ '.' := by
  constructor
  · intro he; rw [he] at h; exact absurd h (by decide)
  · intro he; rw [he] at h; exact absurd h (by decide)

theorem isOctet_iff (cs : List Char) :
    isOctet cs = true ↔ DecimalLit cs ∧ digitsToNat cs ≤ 255 := by
  simp [isOctet, Bool.and_eq_true, decide_eq_true_eq, isNatSeg_iff]

/-- Every well-formed IPv4 dotted-quad CIDR string is accepted by the
validation check. -/
theorem cidrShaped_accepted (s : String) (hsh : CidrShaped s) :
    cidrValidation s = true := by
  obtain ⟨a, b, c, d, p, hs, ha, ha2, hb, hb2, hc, hc2, hd, hd2, hp, hp2⟩ := hsh
  have hadig := ha.2
  have hbdig := hb.2
  have hcdig := hc.2
  have hddig := hd.2
  have hpdig := hp.2
  have hXslash : ∀ x ∈ a ++ '.' :: (b ++ '.' :: (c ++ '.' :: d)), x ≠ '/' := by
    intro x hx
    simp only [List.mem_append, List.mem_cons] at hx
    rcases hx with hx | hx | hx | hx | hx | hx | hx
    · exact (digit_ne_sep x (hadig x hx)).1
    · subst hx; decide
    · exact (digit_ne_sep x (hbdig x hx)).1
    · subst hx; decide
    · exact (digit_ne_sep x (hcdig x hx)).1
    · subst hx; decide
    · exact (digit_ne_sep x (hddig x hx)).1
  have hPslash : ∀ x ∈ p, x ≠ '/' := fun x hx => (digit_ne_sep x (hpdig x hx)).1
  have hassoc : a ++ '.' :: (b ++ '.' :: (c ++ '.' :: (d ++ '/' :: p))) =
      (a ++ '.' :: (b ++ '.' :: (c ++ '.' :: d))) ++ '/' :: p := by
    simp [List.append_assoc, List.cons_append]
  have hsp : splitOnChar '/' s.toList =
      [a ++ '.' :: (b ++ '.' :: (c ++ '.' :: d)), p] := by
    rw [hs, hassoc, splitOnChar_append '/' _ _ hXslash,
      splitOnChar_of_not_mem '/' p hPslash]
  have hadot : ∀ x ∈ a, x ≠ '.' := fun x hx => (digit_ne_sep x (hadig x hx)).2
  have hbdot : ∀ x ∈ b, x ≠ '.' := fun x hx => (digit_ne_sep x (hbdig x hx)).2
  have hcdot : ∀ x ∈ c, x ≠ '.' := fun x hx => (digit_ne_sep x (hcdig x hx)).2
  have hddot : ∀ x ∈ d, x ≠ '.' := fun x hx => (digit_ne_sep x (hddig x hx)).2
  have hsq : splitOnChar '.' (a ++ '.' :: (b ++ '.' :: (c ++ '.' :: d))) =
      [a, b, c, d] := by
    rw [splitOnChar_append '.' _ _ hadot, splitOnChar_append '.' _ _ hbdot,
      splitOnChar_append '.' _ _ hcdot, splitOnChar_of_not_mem '.' d hddot]
  have h4 : parseIpv4Addr (a ++ '.' :: (b ++ '.' :: (c ++ '.' :: d))) = true := by
    simp only [parseIpv4Addr, hsq]
    simp [Bool.and_eq_true, isOctet_iff, ha, ha2, hb, hb2, hc, hc2, hd, hd2]
  simp only [cidrValidation, hsp]
  rw [if_pos h4]
  simp [Bool.and_eq_true, decide_eq_true_eq, (isNatSeg_iff p).mpr hp, hp2]

/-- A colon-free string is never accepted by the IPv6 scanning loop
started fresh: the first hex group cannot be followed by the
end-of-string (too few groups), by a dot (a trailing dotted-quad is
only legal at byte 12 or after a `::`), or by anything other than a
colon. -/
theorem p6Loop_no_colon (fuel : Nat) (cs : List Char) (h : ':' ∉ cs) :
    p6Loop (fuel + 1) cs 0 false = false := by
  simp only [p6Loop]
  rw [if_neg (by omega : ¬ (16 : Nat) ≤ 0)]
  cases hx : xtoi cs with
  | none => rfl
  | some nc =>
    obtain ⟨n, c⟩ := nc
    by_cases hn : 0xFFFF < n
    · simp [hn]
    · cases hr : cs.drop c with
      | nil => simp [hn, hr]
      | cons r0 rest2 =>
        have hr0mem : r0 ∈ cs := by
          apply List.drop_subset c cs
          rw [hr]
          exact List.mem_cons_self r0 rest2
        have hr0 : r0 ≠ ':' := fun he => h (he ▸ hr0mem)
        by_cases hdot : r0 = '.'
        · subst hdot
          simp [hn, hr]
        · simp [hn, hr, hdot, hr0]

theorem hostPart_mem (cs : List Char) : ∀ x ∈ hostPart cs, x ∈ cs := by
  intro x hx
  unfold hostPart at hx
  split at hx
  · split at hx
    · exact List.take_subset _ _ hx
    · exact hx
  · exact hx

theorem parseIpv6NoZone_no_colon (cs : List Char) (h : ':' ∉ cs) :
    parseIpv6NoZone cs = false := by
  cases cs with
  | nil => decide
  | cons c1 rest1 =>
    cases rest1 with
    | nil => exact p6Loop_no_colon 8 _ h
    | cons c2 rest =>
      have hc1 : c1 ≠ ':' := fun he => h (he ▸ List.mem_cons_self c1 (c2 :: rest))
      simp only [parseIpv6NoZone]
      rw [if_neg (fun hand => hc1 hand.1)]
      exact p6Loop_no_colon 8 _ h

/-- A colon-free string never parses as an IPv6 address. -/
theorem parseIpv6Addr_no_colon (cs : List Char) (h : ':' ∉ cs) :
    parseIpv6Addr cs = false :=
  parseIpv6NoZone_no_colon (hostPart cs) (fun hm => h (hostPart_mem cs ':' hm))

/-- Among colon-free strings (so, everything except IPv6 notation) the
validation check accepts only well-formed IPv4 dotted-quad CIDR
strings. -/
theorem accepted_no_colon_shaped (s : String) (hnc : ':' ∉ s.toList)
    (hv : cidrValidation s = true) : CidrShaped s := by
  unfold cidrValidation at hv
  split at hv
  · rename_i addr mask hsp
    have hjoin := joinSep_splitOnChar '/' s.toList
    rw [hsp] at hjoin
    have hs : s.toList = addr ++ '/' :: mask := hjoin.symm
    by_cases h4 : parseIpv4Addr addr = true
    · rw [if_pos h4] at hv
      unfold parseIpv4Addr at h4
      split at h4
      · rename_i a b c d hsq
        have hq := joinSep_splitOnChar '.' addr
        rw [hsq] at hq
        have haddr : addr = a ++ '.' :: (b ++ '.' :: (c ++ '.' :: d)) := hq.symm
        simp only [Bool.and_eq_true, decide_eq_true_eq] at hv h4
        obtain ⟨⟨⟨hoa, hob⟩, hoc⟩, hod⟩ := h4
        rw [isOctet_iff] at hoa hob hoc hod
        obtain ⟨hv1, hv2⟩ := hv
        refine ⟨a, b, c, d, mask, ?_, hoa.1, hoa.2, hob.1, hob.2, hoc.1, hoc.2,
          hod.1, hod.2, (isNatSeg_iff mask).mp hv1, hv2⟩
        rw [hs, haddr]
        simp [List.append_assoc, List.cons_append]
      · exact absurd h4 (by simp)
    · rw [if_neg h4] at hv
      have haddrnc : ':' ∉ addr := by
        intro hm
        apply hnc
        rw [hs]
        exact List.mem_append_left _ hm
      rw [parseIpv6Addr_no_colon addr haddrnc] at hv
      simp at hv
  · simp at hv

/-! ## Input variables with their validation rules

The address-space / subnet-prefix variables of the hub
(`infrastructure/hub`), the Key Vault spoke, the Database spoke and the
Storage spoke, with the validation rule each declares.  The hub and the
Key Vault / Database spokes validate with `can(cidrhost(var.x, 0))`;
the Storage spoke's two address variables declare no validation block. -/

structure TfVariable where
  name : String
  validation : Option (String → Bool)

/-- Whether a variable's declared validation (if any) lets a value
through; a variable without a validation rule accepts everything. -/
def variableAccepts (v : TfVariable) (s : String) : Bool :=
  match v.validation with
  | some f => f s
  | none => true

def hub_vnet_address_space_var : TfVariable :=
  ⟨"hub.hub_vnet_address_space", some cidrValidation⟩

def gateway_subnet_var : TfVariable :=
  ⟨"hub.gateway_subnet_address_prefix", some cidrValidation⟩

def firewall_subnet_var : TfVariable :=
  ⟨"hub.firewall_subnet_address_prefix", some cidrValidation⟩

def bastion_subnet_var : TfVariable :=
  ⟨"hub.bastion_subnet_address_prefix", some cidrValidation⟩

def shared_services_subnet_var : TfVariable :=
  ⟨"hub.shared_services_subnet_address_prefix", some cidrValidation⟩

def kv_spoke_vnet_address_space_var : TfVariable :=
  ⟨"keyvault-spoke.spoke_vnet_address_space", some cidrValidation⟩

def kv_subnet_var : TfVariable :=
  ⟨"keyvault-spoke.keyvault_subnet_address_prefix", some cidrValidation⟩

def db_spoke_vnet_address_space_var : TfVariable :=
  ⟨"database-spoke.spoke_vnet_address_space", some cidrValidation⟩

def db_subnet_var : TfVariable :=
  ⟨"database-spoke.database_subnet_address_prefix", some cidrValidation⟩

def st_spoke_vnet_address_space_var : TfVariable :=
  ⟨"storage-spoke.spoke_vnet_address_space", none⟩

def st_subnet_var : TfVariable :=
  ⟨"storage-spoke.storage_subnet_address_prefix", none⟩

/-- All address-space and subnet-prefix input variables of the hub and
of the three spokes, in source order. -/
def addressVariables : List TfVariable :=
  [hub_vnet_address_space_var, gateway_subnet_var, firewall_subnet_var,
   bastion_subnet_var, shared_services_subnet_var,
   kv_spoke_vnet_address_space_var, kv_subnet_var,
   db_spoke_vnet_address_space_var, db_subnet_var,
   st_spoke_vnet_address_space_var, st_subnet_var]

/-! ## Password generation and the declared password policy

`random_password.db_admin` in the Database spoke sets `length = 16` and
`special = true` and leaves every other argument at the provider's
default: `lower = upper = numeric = true` and
`min_lower = min_upper = min_numeric = min_special = 0`.  Its possible
outcomes are therefore exactly the strings of length 16 over lowercase
letters, uppercase letters, digits and the provider's special-character
set — with no guaranteed occurrence of any class.

The repository's own declared password policy is the validation rule of
`database_admin_password`: 12–128 characters with at least one
lowercase letter, one uppercase letter, one digit and one special
character from `@$!%*?&`. -/

/-- Special characters the `random` provider draws from when
`special = true` and `override_special` is unset. -/
def randomSpecialChars : List Char := "!@#$%&*()-_=+[]\x7b\x7d<>:?".toList

/-- Special characters accepted by the declared password policy of
`database_admin_password`. -/
def policySpecialChars : List Char := "@$!%*?&".toList

def randomPasswordAllowedChar (c : Char) : Bool :=
  c.isLower || c.isUpper || c.isDigit || randomSpecialChars.contains c

/-- Membership in the outcome set of `random_password.db_admin`
(`length = 16`, `special = true`, all `min_*` at their default 0). -/
def randomPasswordSupport (s : String) : Bool :=
  s.length == 16 && s.toList.all randomPasswordAllowedChar

/-- The minimum-strength policy declared by the repository for database
admin passwords: length 12–128 with at least one lowercase letter, one
uppercase letter, one digit and one special character. -/
def meetsPasswordPolicy (s : String) : Bool :=
  decide (12 ≤ s.length) && decide (s.length ≤ 128) &&
  s.toList.any (fun c => c.isLower) && s.toList.any (fun c => c.isUpper) &&
  s.toList.any (fun c => c.isDigit) && s.toList.any (fun c => policySpecialChars.contains c)

/-! ## Remote-state outputs and run errors -/

/-- The hub's published outputs consumed by every spoke via
`data.terraform_remote_state.hub`. -/
structure HubOutputs where
  environment : String
  common_tags : Tags
  hub_resource_group_name : String
  hub_vnet_name : String
  hub_vnet_id : String
  hub_vnet_address_space : List String
  shared_services_subnet_id : String
  keyvault_private_dns_zone_name : String
  keyvault_private_dns_zone_id : String
  postgres_private_dns_zone_name : String
  postgres_private_dns_zone_id : String
  storage_private_dns_zone_name : String
  storage_private_dns_zone_id : String
  log_analytics_workspace_id : String

/-- The Key Vault spoke's output consumed by the Database and Storage
spokes when secret storage is enabled. -/
structure KeyVaultOutputs where
  key_vault_id : String

/-- Plan-phase failures: a `terraform_remote_state` data source whose
backing state cannot be read aborts the run during planning, before any
resource is created. -/
inductive TfError where
  | hubStateUnreadable
  | keyvaultStateUnreadable
  deriving DecidableEq

/-- Plan-phase read of the Key Vault spoke's remote state, gated by the
secret-storage flag exactly as
`data "terraform_remote_state" "keyvault" { count = flag ? 1 : 0 }`:
with the flag set an unreadable state is a hard error; with the flag
unset the data source does not exist and nothing is read. -/
def readKeyVaultState (flag : Bool) (kv : Option KeyVaultOutputs) :
    Except TfError (Option KeyVaultOutputs) :=
  if flag then
    match kv with
    | none => .error .keyvaultStateUnreadable
    | some k => .ok (some k)
  else .ok none

/-- Outcome of a spoke's `random_string.suffix`
(`length = 8, special = false, upper = false`). -/
structure RandomOutcomes where
  suffix : String

/-! ## Shared resource shapes -/

structure Peering where
  name : String
  virtual_network_name : String
  remote_virtual_network_id : String

structure PrivateEndpoint where
  name : String
  subnet_id : String
  private_dns_zone_ids : List String

structure KvSecret where
  name : String
  value : String
  key_vault_id : String

def countOpt {α : Type} : Option α → Nat
  | some _ => 1
  | none => 0

/-- Substring test (used to check whether a resource name incorporates
the environment tag or the random suffix). -/
def substrB (needle hay : List Char) : Bool :=
  (List.range (hay.length + 1)).any (fun i => needle.isPrefixOf (hay.drop i))

/-! ## Key Vault spoke (`infrastructure/spokes/keyvault-spoke`) -/

structure KvSpokeVars where
  spoke_location : String
  spoke_vnet_address_space : String
  key_vault_sku : String
  soft_delete_retention_days : Nat
  enable_purge_protection : Bool
  allow_public_access : Bool
  additional_tags : Tags

/-- Defaults of the Key Vault spoke's variables
(`keyvault-spoke/variables.tf`).  Note `allow_public_access` defaults
to `true` there. -/
def kvSpokeDefaults : KvSpokeVars where
  spoke_location := "South Central US"
  spoke_vnet_address_space := "10.1.0.0/16"
  key_vault_sku := "standard"
  soft_delete_retention_days := 7
  enable_purge_protection := false
  allow_public_access := true
  additional_tags := []

structure KeyVaultResource where
  name : String
  sku_name : String
  public_network_access_enabled : Bool
  network_acls_bypass : String
  network_acls_default_action : String
  network_acls_subnet_ids : List String
  tags : Tags

structure KvSpokeState where
  spoke_tags : Tags
  resource_group_name : String
  vnet_name : String
  subnet_name : String
  subnet_id : String
  nsg_name : String
  key_vault : KeyVaultResource
  keyvault_private_endpoint : Option PrivateEndpoint
  spoke_to_hub : Peering
  hub_to_spoke : Peering
  dns_link_name : String
  diag_name : String

/-- The resources declared in `keyvault-spoke/main.tf`, as a function
of the variables, the hub outputs and the random suffix. -/
def kvSpokeState (v : KvSpokeVars) (hub : HubOutputs) (r : RandomOutcomes) :
    KvSpokeState :=
  let suffix := r.suffix
  let env := hub.environment
  let spoke_tags : Tags :=
    hub.common_tags ++
      [("Component", "KeyVault-Spoke"), ("Region", v.spoke_location)] ++
      v.additional_tags
  let vnet_name := "vnet-guiworld-keyvault-" ++ env ++ "-" ++ suffix
  let subnet_name := "snet-keyvault"
  let subnet_id := vnet_name ++ "/subnets/" ++ subnet_name
  { spoke_tags := spoke_tags
    resource_group_name := "rg-guiworld-keyvault-" ++ env ++ "-" ++ suffix
    vnet_name := vnet_name
    subnet_name := subnet_name
    subnet_id := subnet_id
    nsg_name := "nsg-keyvault-" ++ env ++ "-" ++ suffix
    key_vault :=
      { name := "kv-guiworld-" ++ env ++ "-" ++ suffix
        sku_name := v.key_vault_sku
        public_network_access_enabled := v.allow_public_access
        network_acls_bypass := "AzureServices"
        network_acls_default_action := if v.allow_public_access then "Allow" else "Deny"
        network_acls_subnet_ids := [subnet_id, hub.shared_services_subnet_id]
        tags := spoke_tags }
    keyvault_private_endpoint :=
      if v.allow_public_access then none
      else some
        { name := "pep-keyvault-" ++ env ++ "-" ++ suffix
          subnet_id := subnet_id
          private_dns_zone_ids := [hub.keyvault_private_dns_zone_id] }
    spoke_to_hub :=
      { name := "peer-keyvault-to-hub"
        virtual_network_name := vnet_name
        remote_virtual_network_id := hub.hub_vnet_id }
    hub_to_spoke :=
      { name := "peer-hub-to-keyvault"
        virtual_network_name := hub.hub_vnet_name
        remote_virtual_network_id := "vnet-id:" ++ vnet_name }
    dns_link_name := "keyvault-spoke-link"
    diag_name := "diag-keyvault-" ++ env ++ "-" ++ suffix }

/-- A run of the Key Vault spoke: the plan-phase read of the hub's
remote state followed by resource creation. -/
def kvSpokeRun (v : KvSpokeVars) (hubState : Option HubOutputs)
    (r : RandomOutcomes) : Except TfError KvSpokeState :=
  match hubState with
  | none => .error .hubStateUnreadable
  | some hub => .ok (kvSpokeState v hub r)

/-! ## Database spoke (`database-spoke`, source `main.tf` and
`variables.tf`) -/

structure DbSpokeVars where
  spoke_location : String
  store_password_in_keyvault : Bool
  spoke_vnet_address_space : String
  postgresql_sku : String
  postgresql_storage_mb : Nat
  postgresql_version : String
  database_admin_username : String
  database_admin_password : String
  database_name : String
  additional_databases : List String
  backup_retention_days : Nat
  additional_tags : Tags

/-- Defaults of the Database spoke's variables
(`database-spoke/variables.tf`); `store_password_in_keyvault` defaults
to `false` and `database_admin_password` to `""` (auto-generate). -/
def dbSpokeDefaults : DbSpokeVars where
  spoke_location := "East US"
  store_password_in_keyvault := false
  spoke_vnet_address_space := "10.2.0.0/16"
  postgresql_sku := "B_Standard_B1ms"
  postgresql_storage_mb := 32768
  postgresql_version := "15"
  database_admin_username := "guiworld_admin"
  database_admin_password := ""
  database_name := "guiworld"
  additional_databases := []
  backup_retention_days := 14
  additional_tags := []

/-- Outcomes of the Database spoke's random resources:
`random_string.suffix` and `random_password.db_admin`. -/
structure DbRandomOutcomes where
  suffix : String
  generated_password : String

/-- The password expression used by the PostgreSQL server and both Key
Vault secrets:
`var.database_admin_password != "" ? var.database_admin_password : random_password.db_admin.result`. -/
def effectiveDbPassword (v : DbSpokeVars) (r : DbRandomOutcomes) : String :=
  if v.database_admin_password ≠ "" then v.database_admin_password
  else r.generated_password

structure PostgresServer where
  name : String
  administrator_login : String
  administrator_password : String
  delegated_subnet_id : String
  private_dns_zone_id : String
  fqdn : String
  tags : Tags

structure DbSpokeState where
  spoke_tags : Tags
  resource_group_name : String
  vnet_name : String
  subnet_name : String
  subnet_id : String
  nsg_name : String
  dns_link_name : String
  server : PostgresServer
  main_database_name : String
  spoke_to_hub : Peering
  hub_to_spoke : Peering
  db_password_secret : Option KvSecret
  db_connection_string_secret : Option KvSecret
  diag_name : String

/-- The resources declared in the Database spoke's `main.tf`, as a
function of the variables, the hub outputs, the (plan-phase) Key Vault
remote-state read result and the random outcomes.  The two
`azurerm_key_vault_secret` resources have
`count = var.store_password_in_keyvault ? 1 : 0` and reference
`data.terraform_remote_state.keyvault[0]`, which the run only supplies
when the flag is set. -/
def dbSpokeState (v : DbSpokeVars) (hub : HubOutputs)
    (kv : Option KeyVaultOutputs) (r : DbRandomOutcomes) : DbSpokeState :=
  let suffix := r.suffix
  let env := hub.environment
  let spoke_tags : Tags :=
    hub.common_tags ++
      [("Component", "Database-Spoke"), ("Region", v.spoke_location)] ++
      v.additional_tags
  let vnet_name := "vnet-guiworld-database-" ++ env ++ "-" ++ suffix
  let subnet_name := "snet-database"
  let subnet_id := vnet_name ++ "/subnets/" ++ subnet_name
  let server_name := "psql-guiworld-" ++ env ++ "-" ++ suffix
  let fqdn := server_name ++ ".postgres.database.azure.com"
  let password := effectiveDbPassword v r
  let kvId := (kv.map (fun k => k.key_vault_id)).getD ""
  { spoke_tags := spoke_tags
    resource_group_name := "rg-guiworld-database-" ++ env ++ "-" ++ suffix
    vnet_name := vnet_name
    subnet_name := subnet_name
    subnet_id := subnet_id
    nsg_name := "nsg-database-" ++ env ++ "-" ++ suffix
    dns_link_name := "database-spoke-link"
    server :=
      { name := server_name
        administrator_login := v.database_admin_username
        administrator_password := password
        delegated_subnet_id := subnet_id
        private_dns_zone_id := hub.postgres_private_dns_zone_id
        fqdn := fqdn
        tags := spoke_tags }
    main_database_name := v.database_name
    spoke_to_hub :=
      { name := "peer-database-to-hub"
        virtual_network_name := vnet_name
        remote_virtual_network_id := hub.hub_vnet_id }
    hub_to_spoke :=
      { name := "peer-hub-to-database"
        virtual_network_name := hub.hub_vnet_name
        remote_virtual_network_id := "vnet-id:" ++ vnet_name }
    db_password_secret :=
      if v.store_password_in_keyvault then
        some { name := "database-admin-password"
               value := password
               key_vault_id := kvId }
      else none
    db_connection_string_secret :=
      if v.store_password_in_keyvault then
        some { name := "database-connection-string"
               value := "Host=" ++ fqdn ++ ";Database=" ++ v.database_name ++
                 ";Username=" ++ v.database_admin_username ++
                 ";Password=" ++ password ++ ";SSL Mode=Require"
               key_vault_id := kvId }
      else none
    diag_name := "diag-postgresql-" ++ env ++ "-" ++ suffix }

/-- A run of the Database spoke: plan-phase reads of the hub's remote
state and (when `store_password_in_keyvault` is set) the Key Vault
spoke's remote state, followed by resource creation.  Either failing
read aborts the run with no resource created. -/
def dbSpokeRun (v : DbSpokeVars) (hubState : Option HubOutputs)
    (kvState : Option KeyVaultOutputs) (r : DbRandomOutcomes) :
    Except TfError DbSpokeState :=
  match hubState with
  | none => .error .hubStateUnreadable
  | some hub =>
    match readKeyVaultState v.store_password_in_keyvault kvState with
    | .error e => .error e
    | .ok kvOpt => .ok (dbSpokeState v hub kvOpt r)

/-! ## Storage spoke (`infrastructure/spokes/storage-spoke`) -/

structure FileShareCfg where
  quota_gb : Nat
  access_tier : String

structure StSpokeVars where
  spoke_location : String
  spoke_vnet_address_space : String
  storage_account_tier : String
  storage_replication_type : String
  storage_account_kind : String
  allow_public_access : Bool
  storage_containers : List String
  file_shares : List (String × FileShareCfg)
  storage_tables : List String
  storage_queues : List String
  enable_static_website : Bool
  store_connection_string_in_keyvault : Bool
  additional_tags : Tags

/-- Defaults of the Storage spoke's variables; `allow_public_access`
defaults to `false` there. -/
def stSpokeDefaults : StSpokeVars where
  spoke_location := "West US"
  spoke_vnet_address_space := "10.3.0.0/16"
  storage_account_tier := "Standard"
  storage_replication_type := "LRS"
  storage_account_kind := "StorageV2"
  allow_public_access := false
  storage_containers := ["webgui-data", "application-assets", "user-uploads", "backup-data"]
  file_shares := [("webgui-shared", ⟨100, "Hot"⟩), ("application-files", ⟨50, "Hot"⟩)]
  storage_tables := []
  storage_queues := []
  enable_static_website := false
  store_connection_string_in_keyvault := true
  additional_tags := []

structure StorageAccount where
  name : String
  account_tier : String
  allow_nested_items_to_be_public : Bool
  public_network_access_enabled : Bool
  network_rules_default_action : String
  network_rules_bypass : List String
  network_rules_subnet_ids : List String
  tags : Tags

structure StSpokeState where
  spoke_tags : Tags
  resource_group_name : String
  vnet_name : String
  subnet_name : String
  subnet_id : String
  nsg_name : String
  storage_account : StorageAccount
  containers : List String
  shares : List String
  blob_private_endpoint : Option PrivateEndpoint
  file_private_endpoint : Option PrivateEndpoint
  spoke_to_hub : Peering
  hub_to_spoke : Peering
  dns_link_name : String
  connection_string_secret : Option KvSecret
  access_key_secret : Option KvSecret
  diag_name : String
  storage_blob_private_endpoint_id_output : Option String
  storage_file_private_endpoint_id_output : Option String

/-- The resources declared in the Storage spoke's `main.tf` together
with the two private-endpoint outputs of its `outputs.tf`.
`azurerm_private_endpoint.storage_blob` has
`count = var.allow_public_access ? 0 : 1` and
`azurerm_private_endpoint.storage_file` has
`count = var.allow_public_access || length(var.file_shares) == 0 ? 0 : 1`. -/
def stSpokeState (v : StSpokeVars) (hub : HubOutputs)
    (kv : Option KeyVaultOutputs) (r : RandomOutcomes) : StSpokeState :=
  let suffix := r.suffix
  let env := hub.environment
  let spoke_tags : Tags :=
    hub.common_tags ++
      [("Component", "Storage-Spoke"), ("Region", v.spoke_location)] ++
      v.additional_tags
  let vnet_name := "vnet-guiworld-storage-" ++ env ++ "-" ++ suffix
  let subnet_name := "snet-storage"
  let subnet_id := vnet_name ++ "/subnets/" ++ subnet_name
  let account_name := "stguiworld" ++ env ++ suffix
  let kvId := (kv.map (fun k => k.key_vault_id)).getD ""
  let file_pe : Option PrivateEndpoint :=
    if v.allow_public_access || v.file_shares.isEmpty then none
    else some
      { name := "pep-storage-file-" ++ env ++ "-" ++ suffix
        subnet_id := subnet_id
        private_dns_zone_ids := [] }
  let blob_pe : Option PrivateEndpoint :=
    if v.allow_public_access then none
    else some
      { name := "pep-storage-blob-" ++ env ++ "-" ++ suffix
        subnet_id := subnet_id
        private_dns_zone_ids := [hub.storage_private_dns_zone_id] }
  { spoke_tags := spoke_tags
    resource_group_name := "rg-guiworld-storage-" ++ env ++ "-" ++ suffix
    vnet_name := vnet_name
    subnet_name := subnet_name
    subnet_id := subnet_id
    nsg_name := "nsg-storage-" ++ env ++ "-" ++ suffix
    storage_account :=
      { name := account_name
        account_tier := v.storage_account_tier
        allow_nested_items_to_be_public := v.allow_public_access
        public_network_access_enabled := v.allow_public_access
        network_rules_default_action := if v.allow_public_access then "Allow" else "Deny"
        network_rules_bypass := ["AzureServices"]
        network_rules_subnet_ids := [subnet_id, hub.shared_services_subnet_id]
        tags := spoke_tags }
    containers := v.storage_containers
    shares := v.file_shares.map Prod.fst
    blob_private_endpoint := blob_pe
    file_private_endpoint := file_pe
    spoke_to_hub :=
      { name := "peer-storage-to-hub"
        virtual_network_name := vnet_name
        remote_virtual_network_id := hub.hub_vnet_id }
    hub_to_spoke :=
      { name := "peer-hub-to-storage"
        virtual_network_name := hub.hub_vnet_name
        remote_virtual_network_id := "vnet-id:" ++ vnet_name }
    dns_link_name := "storage-spoke-link"
    connection_string_secret :=
      if v.store_connection_string_in_keyvault then
        some { name := "storage-connection-string"
               value := "connection-string:" ++ account_name
               key_vault_id := kvId }
      else none
    access_key_secret :=
      if v.store_connection_string_in_keyvault then
        some { name := "storage-access-key"
               value := "access-key:" ++ account_name
               key_vault_id := kvId }
      else none
    diag_name := "diag-storage-" ++ env ++ "-" ++ suffix
    storage_blob_private_endpoint_id_output :=
      if v.allow_public_access then none
      else blob_pe.map (fun pe => "pe-id:" ++ pe.name)
    storage_file_private_endpoint_id_output :=
      if v.allow_public_access || v.file_shares.isEmpty then none
      else file_pe.map (fun pe => "pe-id:" ++ pe.name) }

/-- A run of the Storage spoke: plan-phase reads of the hub's remote
state and (when `store_connection_string_in_keyvault` is set) the Key
Vault spoke's remote state, followed by resource creation. -/
def stSpokeRun (v : StSpokeVars) (hubState : Option HubOutputs)
    (kvState : Option KeyVaultOutputs) (r : RandomOutcomes) :
    Except TfError StSpokeState :=
  match hubState with
  | none => .error .hubStateUnreadable
  | some hub =>
    match readKeyVaultState v.store_connection_string_in_keyvault kvState with
    | .error e => .error e
    | .ok kvOpt => .ok (stSpokeState v hub kvOpt r)

/-! ## Sample values used by witnesses and counterexamples -/

def hubEx : HubOutputs where
  environment := "dev"
  common_tags := [("Environment", "dev"), ("Project", "GuiWorld"), ("ManagedBy", "Terraform")]
  hub_resource_group_name := "rg-guiworld-hub-dev-hub00000"
  hub_vnet_name := "vnet-guiworld-hub-dev-hub00000"
  hub_vnet_id := "hub-vnet-id"
  hub_vnet_address_space := ["10.0.0.0/16"]
  shared_services_subnet_id := "shared-services-subnet-id"
  keyvault_private_dns_zone_name := "privatelink.vaultcore.azure.net"
  keyvault_private_dns_zone_id := "kv-dns-zone-id"
  postgres_private_dns_zone_name := "privatelink.postgres.database.azure.com"
  postgres_private_dns_zone_id := "pg-dns-zone-id"
  storage_private_dns_zone_name := "privatelink.blob.core.windows.net"
  storage_private_dns_zone_id := "st-dns-zone-id"
  log_analytics_workspace_id := "law-id"

def kvOutEx : KeyVaultOutputs where
  key_vault_id := "kv-id-ex"

def rEx : RandomOutcomes where
  suffix := "abcd1234"

def dbrEx : DbRandomOutcomes where
  suffix := "abcd1234"
  generated_password := "GenPw123!aaaaaaa"

def rEx2 : RandomOutcomes where
  suffix := "efgh5678"

/-- The Database spoke's variables with secret storage requested. -/
def dbVarsStoreEx : DbSpokeVars :=
  { dbSpokeDefaults with store_password_in_keyvault := true }

def KvSpokeState.peeringNames (s : KvSpokeState) : List String :=
  [s.spoke_to_hub.name, s.hub_to_spoke.name]

def DbSpokeState.peeringNames (s : DbSpokeState) : List String :=
  [s.spoke_to_hub.name, s.hub_to_spoke.name]

def StSpokeState.peeringNames (s : StSpokeState) : List String :=
  [s.spoke_to_hub.name, s.hub_to_spoke.name]

/-! ## Claim C1 -/

/-- C1, counterexample: the claim says `allow_public_access` defaults to
`false` (deny-by-default) for every spoke, but the Key Vault spoke's
`variables.tf` declares `default = true` for it. -/
theorem c1_public_access_default_counterexample :
    ¬ kvSpokeDefaults.allow_public_access = false := by decide

/-- C1, amended: for the Key Vault and Storage spokes the domain
resource's network ACLs admit exactly the spoke's own subnet plus the
hub's shared-services subnet, and public network access is enabled
exactly when `allow_public_access` is set; the flag defaults to `false`
for the Storage spoke but to `true` for the Key Vault spoke (the
Database spoke declares no such flag; its server is reachable only
through its delegated subnet). -/
theorem c1_network_access_amended :
    (∀ (v : KvSpokeVars) (hub : HubOutputs) (r : RandomOutcomes),
      (kvSpokeState v hub r).key_vault.network_acls_subnet_ids =
        [(kvSpokeState v hub r).subnet_id, hub.shared_services_subnet_id] ∧
      (kvSpokeState v hub r).key_vault.public_network_access_enabled =
        v.allow_public_access ∧
      ((kvSpokeState v hub r).key_vault.network_acls_default_action = "Deny" ↔
        v.allow_public_access = false)) ∧
    (∀ (v : StSpokeVars) (hub : HubOutputs) (kv : Option KeyVaultOutputs)
        (r : RandomOutcomes),
      (stSpokeState v hub kv r).storage_account.network_rules_subnet_ids =
        [(stSpokeState v hub kv r).subnet_id, hub.shared_services_subnet_id] ∧
      (stSpokeState v hub kv r).storage_account.public_network_access_enabled =
        v.allow_public_access ∧
      ((stSpokeState v hub kv r).storage_account.network_rules_default_action = "Deny" ↔
        v.allow_public_access = false)) ∧
    kvSpokeDefaults.allow_public_access = true ∧
    stSpokeDefaults.allow_public_access = false := by
  refine ⟨fun v hub r => ⟨rfl, rfl, ?_⟩, fun v hub kv r => ⟨rfl, rfl, ?_⟩, rfl, rfl⟩ <;>
    cases h : v.allow_public_access <;>
    simp [kvSpokeState, stSpokeState, h]

/-! ## Claim C2 -/

/-- C2, counterexample: the Storage spoke's `spoke_vnet_address_space`
variable declares no validation rule, so a malformed string is not
rejected there, refuting the claim for that variable. -/
theorem c2_storage_no_validation_counterexample :
    st_spoke_vnet_address_space_var ∈ addressVariables ∧
    st_spoke_vnet_address_space_var.validation = none ∧
    variableAccepts st_spoke_vnet_address_space_var "not-a-cidr" = true ∧
    cidrValidation "not-a-cidr" = false := by
  refine ⟨?_, rfl, rfl, by decide⟩
  simp [addressVariables]

/-- C2, amended: every address-space / subnet-prefix variable of the hub
and of the Key Vault and Database spokes carries the CIDR validation
rule; that rule accepts every well-formed IPv4 dotted-quad CIDR block
(leading-zero octets included, as the lenient pre-Go-1.17 parser that
Terraform keeps admits them), accepts IPv6 prefixes such as
`2001:db8::/32`, and among colon-free strings accepts nothing but
well-formed IPv4 CIDR blocks — so every malformed colon-free string is
rejected; the Storage spoke's two such variables carry no validation
rule at all. -/
theorem c2_cidr_validation_amended :
    hub_vnet_address_space_var.validation = some cidrValidation ∧
    gateway_subnet_var.validation = some cidrValidation ∧
    firewall_subnet_var.validation = some cidrValidation ∧
    bastion_subnet_var.validation = some cidrValidation ∧
    shared_services_subnet_var.validation = some cidrValidation ∧
    kv_spoke_vnet_address_space_var.validation = some cidrValidation ∧
    kv_subnet_var.validation = some cidrValidation ∧
    db_spoke_vnet_address_space_var.validation = some cidrValidation ∧
    db_subnet_var.validation = some cidrValidation ∧
    (∀ s : String, CidrShaped s → cidrValidation s = true) ∧
    (∀ s : String, ':' ∉ s.toList → (cidrValidation s = true ↔ CidrShaped s)) ∧
    cidrValidation "010.0.0.0/16" = true ∧
    cidrValidation "2001:db8::/32" = true ∧
    st_spoke_vnet_address_space_var.validation = none ∧
    st_subnet_var.validation = none :=
  ⟨rfl, rfl, rfl, rfl, rfl, rfl, rfl, rfl, rfl,
   cidrShaped_accepted,
   fun s hnc => ⟨accepted_no_colon_shaped s hnc, cidrShaped_accepted s⟩,
   by decide, by decide, rfl, rfl⟩

/-- C2, witness: the amended theorem applied at the Database spoke's
default address space `10.2.0.0/16`, which is CIDR-shaped and
colon-free. -/
theorem c2_cidr_validation_amended_witness :
    cidrValidation "10.2.0.0/16" = true ∧
    (cidrValidation "10.2.0.0/16" = true ↔ CidrShaped "10.2.0.0/16") := by
  have hshape : CidrShaped "10.2.0.0/16" :=
    ⟨['1', '0'], ['2'], ['0'], ['0'], ['1', '6'], by decide,
      ⟨by decide, by decide⟩, by decide, ⟨by decide, by decide⟩, by decide,
      ⟨by decide, by decide⟩, by decide, ⟨by decide, by decide⟩, by decide,
      ⟨by decide, by decide⟩, by decide⟩
  have hnc : ':' ∉ "10.2.0.0/16".toList := by decide
  obtain ⟨-, -, -, -, -, -, -, -, -, hacc, hiff, -, -, -, -⟩ :=
    c2_cidr_validation_amended
  exact ⟨hacc _ hshape, hiff _ hnc⟩

/-! ## Claim C3 -/

/-- C3: the claim says the auto-generated admin password always has at
least one lowercase letter, one uppercase letter, one digit and one
special character; but `random_password.db_admin` leaves the `min_*`
arguments at their default 0, so the all-lowercase string
`"aaaaaaaaaaaaaaaa"` is a possible outcome, and it violates the
declared policy. -/
theorem c3_generated_password_violates_policy :
    randomPasswordSupport "aaaaaaaaaaaaaaaa" = true ∧
    meetsPasswordPolicy "aaaaaaaaaaaaaaaa" = false := by decide

/-! ## Claim C4 -/

/-- C4: with `store_password_in_keyvault = true` and an unreadable Key
Vault remote state, a Database spoke run fails in the plan phase with a
hard error, so no resource — in particular not the PostgreSQL server —
is created. -/
theorem c4_unreadable_keyvault_state_fails
    (v : DbSpokeVars) (hub : HubOutputs) (r : DbRandomOutcomes)
    (h : v.store_password_in_keyvault = true) :
    dbSpokeRun v (some hub) none r = .error .keyvaultStateUnreadable := by
  simp [dbSpokeRun, readKeyVaultState, h]

/-- C4, witness at a concrete configuration. -/
theorem c4_unreadable_keyvault_state_fails_witness :
    dbVarsStoreEx.store_password_in_keyvault = true ∧
    dbSpokeRun dbVarsStoreEx (some hubEx) none dbrEx =
      .error .keyvaultStateUnreadable :=
  ⟨rfl, c4_unreadable_keyvault_state_fails dbVarsStoreEx hubEx dbrEx rfl⟩

/-! ## Claim C5 -/

/-- C5: with `store_password_in_keyvault = false` no Key Vault secret
resource is created by a Database spoke run, even when a Key Vault
spoke exists. -/
theorem c5_no_secret_when_flag_false
    (v : DbSpokeVars) (hubState : Option HubOutputs)
    (kvState : Option KeyVaultOutputs) (r : DbRandomOutcomes)
    (st : DbSpokeState)
    (h : v.store_password_in_keyvault = false)
    (hrun : dbSpokeRun v hubState kvState r = .ok st) :
    st.db_password_secret = none ∧ st.db_connection_string_secret = none := by
  cases hubState with
  | none => simp [dbSpokeRun] at hrun
  | some hub =>
    simp [dbSpokeRun, readKeyVaultState, h] at hrun
    rw [← hrun]
    constructor <;> simp [dbSpokeState, h]

/-- C5, witness: a concrete run with the flag off and a Key Vault spoke
present writes neither secret. -/
theorem c5_no_secret_when_flag_false_witness :
    (dbSpokeState dbSpokeDefaults hubEx none dbrEx).db_password_secret = none ∧
    (dbSpokeState dbSpokeDefaults hubEx none dbrEx).db_connection_string_secret = none :=
  c5_no_secret_when_flag_false dbSpokeDefaults (some hubEx) (some kvOutEx) dbrEx
    (dbSpokeState dbSpokeDefaults hubEx none dbrEx) rfl rfl

/-! ## Claim C6 -/

/-- C6: every spoke creates exactly one bidirectional peering to the hub
as exactly two directional records whose names are role-derived
constants independent of the random suffix, so any two runs create the
same duplicate-free set of peering names. -/
theorem c6_peering_names_deterministic :
    (∀ (v : KvSpokeVars) (hub : HubOutputs) (r r' : RandomOutcomes),
      (kvSpokeState v hub r).peeringNames = (kvSpokeState v hub r').peeringNames ∧
      (kvSpokeState v hub r).peeringNames =
        ["peer-keyvault-to-hub", "peer-hub-to-keyvault"] ∧
      (kvSpokeState v hub r).peeringNames.Nodup) ∧
    (∀ (v : DbSpokeVars) (hub : HubOutputs) (kv kv' : Option KeyVaultOutputs)
        (r r' : DbRandomOutcomes),
      (dbSpokeState v hub kv r).peeringNames = (dbSpokeState v hub kv' r').peeringNames ∧
      (dbSpokeState v hub kv r).peeringNames =
        ["peer-database-to-hub", "peer-hub-to-database"] ∧
      (dbSpokeState v hub kv r).peeringNames.Nodup) ∧
    (∀ (v : StSpokeVars) (hub : HubOutputs) (kv kv' : Option KeyVaultOutputs)
        (r r' : RandomOutcomes),
      (stSpokeState v hub kv r).peeringNames = (stSpokeState v hub kv' r').peeringNames ∧
      (stSpokeState v hub kv r).peeringNames =
        ["peer-storage-to-hub", "peer-hub-to-storage"] ∧
      (stSpokeState v hub kv r).peeringNames.Nodup) :=
  ⟨fun _ _ _ _ => ⟨rfl, rfl, by
      show (["peer-keyvault-to-hub", "peer-hub-to-keyvault"] : List String).Nodup
      decide⟩,
   fun _ _ _ _ _ _ => ⟨rfl, rfl, by
      show (["peer-database-to-hub", "peer-hub-to-database"] : List String).Nodup
      decide⟩,
   fun _ _ _ _ _ _ => ⟨rfl, rfl, by
      show (["peer-storage-to-hub", "peer-hub-to-storage"] : List String).Nodup
      decide⟩⟩

/-! ## Claim C7 -/

/-- C7, counterexample: the claim says every resource name of a spoke
incorporates the environment tag and the random suffix, but the
Database spoke's subnet is the fixed name `"snet-database"`, which does
not contain the deployment's suffix `"abcd1234"`. -/
theorem c7_fixed_subnet_name_counterexample :
    dbrEx.suffix = "abcd1234" ∧
    (dbSpokeState dbSpokeDefaults hubEx none dbrEx).subnet_name = "snet-database" ∧
    substrB "abcd1234".toList
      (dbSpokeState dbSpokeDefaults hubEx none dbrEx).subnet_name.toList = false :=
  ⟨rfl, rfl, by decide⟩

/-- C7, amended: each spoke generates its random suffix once and every
resource name that carries a random component (resource group, VNet,
NSG, domain resource, diagnostic setting) embeds the environment tag
and that same single suffix; subnets and DNS links instead use fixed
names without either. -/
theorem c7_naming_amended :
    (∀ (v : DbSpokeVars) (hub : HubOutputs) (kv : Option KeyVaultOutputs)
        (r : DbRandomOutcomes),
      (dbSpokeState v hub kv r).resource_group_name =
        "rg-guiworld-database-" ++ hub.environment ++ "-" ++ r.suffix ∧
      (dbSpokeState v hub kv r).vnet_name =
        "vnet-guiworld-database-" ++ hub.environment ++ "-" ++ r.suffix ∧
      (dbSpokeState v hub kv r).nsg_name =
        "nsg-database-" ++ hub.environment ++ "-" ++ r.suffix ∧
      (dbSpokeState v hub kv r).server.name =
        "psql-guiworld-" ++ hub.environment ++ "-" ++ r.suffix ∧
      (dbSpokeState v hub kv r).diag_name =
        "diag-postgresql-" ++ hub.environment ++ "-" ++ r.suffix ∧
      (dbSpokeState v hub kv r).subnet_name = "snet-database" ∧
      (dbSpokeState v hub kv r).dns_link_name = "database-spoke-link") ∧
    (∀ (v : KvSpokeVars) (hub : HubOutputs) (r : RandomOutcomes),
      (kvSpokeState v hub r).resource_group_name =
        "rg-guiworld-keyvault-" ++ hub.environment ++ "-" ++ r.suffix ∧
      (kvSpokeState v hub r).vnet_name =
        "vnet-guiworld-keyvault-" ++ hub.environment ++ "-" ++ r.suffix ∧
      (kvSpokeState v hub r).nsg_name =
        "nsg-keyvault-" ++ hub.environment ++ "-" ++ r.suffix ∧
      (kvSpokeState v hub r).key_vault.name =
        "kv-guiworld-" ++ hub.environment ++ "-" ++ r.suffix ∧
      (kvSpokeState v hub r).diag_name =
        "diag-keyvault-" ++ hub.environment ++ "-" ++ r.suffix ∧
      (kvSpokeState v hub r).subnet_name = "snet-keyvault" ∧
      (kvSpokeState v hub r).dns_link_name = "keyvault-spoke-link") ∧
    (∀ (v : StSpokeVars) (hub : HubOutputs) (kv : Option KeyVaultOutputs)
        (r : RandomOutcomes),
      (stSpokeState v hub kv r).resource_group_name =
        "rg-guiworld-storage-" ++ hub.environment ++ "-" ++ r.suffix ∧
      (stSpokeState v hub kv r).vnet_name =
        "vnet-guiworld-storage-" ++ hub.environment ++ "-" ++ r.suffix ∧
      (stSpokeState v hub kv r).nsg_name =
        "nsg-storage-" ++ hub.environment ++ "-" ++ r.suffix ∧
      (stSpokeState v hub kv r).storage_account.name =
        "stguiworld" ++ hub.environment ++ r.suffix ∧
      (stSpokeState v hub kv r).diag_name =
        "diag-storage-" ++ hub.environment ++ "-" ++ r.suffix ∧
      (stSpokeState v hub kv r).subnet_name = "snet-storage" ∧
      (stSpokeState v hub kv r).dns_link_name = "storage-spoke-link") :=
  ⟨fun _ _ _ _ => ⟨rfl, rfl, rfl, rfl, rfl, rfl, rfl⟩,
   fun _ _ _ => ⟨rfl, rfl, rfl, rfl, rfl, rfl, rfl⟩,
   fun _ _ _ _ => ⟨rfl, rfl, rfl, rfl, rfl, rfl, rfl⟩⟩

/-! ## Claim C8 -/

/-- C8: every spoke's resource tag set is
`merge(hub_tags, spoke-specific tags, additional_tags)`: on a key
collision a user-supplied tag overrides the spoke-specific one, which
overrides the hub tag. -/
theorem c8_tag_merge_override :
    ∀ (hub : HubOutputs) (k : String),
    (∀ (v : KvSpokeVars) (r : RandomOutcomes),
      (kvSpokeState v hub r).key_vault.tags = (kvSpokeState v hub r).spoke_tags ∧
      tagLookup (kvSpokeState v hub r).spoke_tags k =
        orO (tagLookup v.additional_tags k)
          (orO (tagLookup [("Component", "KeyVault-Spoke"), ("Region", v.spoke_location)] k)
            (tagLookup hub.common_tags k))) ∧
    (∀ (v : DbSpokeVars) (kv : Option KeyVaultOutputs) (r : DbRandomOutcomes),
      (dbSpokeState v hub kv r).server.tags = (dbSpokeState v hub kv r).spoke_tags ∧
      tagLookup (dbSpokeState v hub kv r).spoke_tags k =
        orO (tagLookup v.additional_tags k)
          (orO (tagLookup [("Component", "Database-Spoke"), ("Region", v.spoke_location)] k)
            (tagLookup hub.common_tags k))) ∧
    (∀ (v : StSpokeVars) (kv : Option KeyVaultOutputs) (r : RandomOutcomes),
      (stSpokeState v hub kv r).storage_account.tags = (stSpokeState v hub kv r).spoke_tags ∧
      tagLookup (stSpokeState v hub kv r).spoke_tags k =
        orO (tagLookup v.additional_tags k)
          (orO (tagLookup [("Component", "Storage-Spoke"), ("Region", v.spoke_location)] k)
            (tagLookup hub.common_tags k))) := by
  intro hub k
  refine ⟨fun v r => ⟨rfl, ?_⟩, fun v kv r => ⟨rfl, ?_⟩, fun v kv r => ⟨rfl, ?_⟩⟩
  · show tagLookup
      ((hub.common_tags ++ [("Component", "KeyVault-Spoke"), ("Region", v.spoke_location)]) ++
        v.additional_tags) k = _
    rw [tagLookup_append, tagLookup_append]
  · show tagLookup
      ((hub.common_tags ++ [("Component", "Database-Spoke"), ("Region", v.spoke_location)]) ++
        v.additional_tags) k = _
    rw [tagLookup_append, tagLookup_append]
  · show tagLookup
      ((hub.common_tags ++ [("Component", "Storage-Spoke"), ("Region", v.spoke_location)]) ++
        v.additional_tags) k = _
    rw [tagLookup_append, tagLookup_append]

/-! ## Claim C9 -/

/-- C9: in the Database spoke the server's admin password, the stored
`database-admin-password` secret and the password embedded in the
stored `database-connection-string` secret are all the same value — the
caller-supplied password when non-empty, otherwise the single generated
password of the deployment. -/
theorem c9_password_consistency :
    ∀ (v : DbSpokeVars) (hub : HubOutputs) (kv : Option KeyVaultOutputs)
      (r : DbRandomOutcomes),
      (dbSpokeState v hub kv r).server.administrator_password =
        effectiveDbPassword v r ∧
      (dbSpokeState v hub kv r).db_password_secret.map (fun sec => sec.value) =
        (if v.store_password_in_keyvault then some (effectiveDbPassword v r) else none) ∧
      (dbSpokeState v hub kv r).db_connection_string_secret.map (fun sec => sec.value) =
        (if v.store_password_in_keyvault then
          some ("Host=" ++ (dbSpokeState v hub kv r).server.fqdn ++ ";Database=" ++
            v.database_name ++ ";Username=" ++ v.database_admin_username ++
            ";Password=" ++ effectiveDbPassword v r ++ ";SSL Mode=Require")
         else none) ∧
      effectiveDbPassword v r =
        (if v.database_admin_password = "" then r.generated_password
         else v.database_admin_password) := by
  intro v hub kv r
  refine ⟨rfl, ?_, ?_, ?_⟩
  · cases h : v.store_password_in_keyvault <;> simp [dbSpokeState, h]
  · cases h : v.store_password_in_keyvault <;> simp [dbSpokeState, h]
  · by_cases h : v.database_admin_password = "" <;> simp [effectiveDbPassword, h]

/-! ## Claim C10 -/

/-- C10: the Storage spoke's blob private endpoint exists exactly when
public access is disabled; the file private endpoint exists exactly
when public access is disabled and at least one file share is
configured; with no file shares the file endpoint and its output stay
absent even when public access is disabled. -/
theorem c10_private_endpoint_gating :
    ∀ (v : StSpokeVars) (hub : HubOutputs) (kv : Option KeyVaultOutputs)
      (r : RandomOutcomes),
      countOpt (stSpokeState v hub kv r).blob_private_endpoint =
        (if v.allow_public_access then 0 else 1) ∧
      countOpt (stSpokeState v hub kv r).file_private_endpoint =
        (if v.allow_public_access || v.file_shares.isEmpty then 0 else 1) ∧
      ((stSpokeState v hub kv r).blob_private_endpoint.isSome ↔
        v.allow_public_access = false) ∧
      ((stSpokeState v hub kv r).file_private_endpoint.isSome ↔
        (v.allow_public_access = false ∧ v.file_shares ≠ [])) ∧
      ((stSpokeState v hub kv r).storage_file_private_endpoint_id_output.isSome ↔
        (stSpokeState v hub kv r).file_private_endpoint.isSome) := by
  intro v hub kv r
  cases hap : v.allow_public_access <;> cases hfs : v.file_shares <;>
    simp [stSpokeState, countOpt, hap, hfs]

end GuiWorld
